import Mathlib

/-!
Shallow embedding of the AidRoute decision-support engine:
`src/ai-agents/src/metta_reasoner.py` (class `MettaHumanitarianReasoner`) and
`src/ai-agents/src/gdacs_analyzer.py` (class `GDACSDisasterAnalyzer`).

Modelling conventions:
* Python floats are modelled as exact rationals (`ℚ`); Python ints as `ℤ`/`ℕ`.
* Python `str.lower`, `str.capitalize`, substring `in`, and `str.replace` with a
  one-character pattern are modelled as structural maps over the character list
  (the source's inputs are plain ASCII).
* Python dicts returned to callers are modelled as key/value association lists;
  a failed key lookup is a `KeyError`.
* Fallible code returns `Except String α`; Python's dynamic TypeError for a
  keyword argument that the callee does not accept is modelled by
  `bindKeywordCall`, which implements CPython's binding rule for
  keyword-argument calls against a parameter list.
-/

namespace AidRoute

/-- Python `int(x)` applied to a rational: truncation toward zero. -/
def pyInt (q : ℚ) : ℤ := if q < 0 then -⌊-q⌋ else ⌊q⌋

/-- Python `round(x, 2)`: rounding to two decimal places.  Every value the
source rounds this way is an exact multiple of 1/100 (proved below), so the
tie-breaking rule (banker's rounding in Python, half-up here) never fires. -/
def round2 (q : ℚ) : ℚ := ((round (q * 100) : ℤ) : ℚ) / 100

/-- Python `str.lower` (ASCII inputs). -/
def strLower (s : String) : String := String.mk (s.data.map Char.toLower)

/-- Python `str.capitalize`: first character upper-cased, rest lower-cased. -/
def strCapitalize (s : String) : String :=
  match s.data with
  | [] => s
  | c :: cs => String.mk (c.toUpper :: cs.map Char.toLower)

/-- Python `type_name.lower().replace(" ", "-")` (a one-character pattern, so a
character map is exact). -/
def slugify (s : String) : String :=
  String.mk ((strLower s).data.map (fun c => if c = ' ' then '-' else c))

/-- Auxiliary for the substring test: does the second list start with the
first? -/
def charsLeadWith : List Char → List Char → Bool
  | [], _ => true
  | _ :: _, [] => false
  | a :: as, b :: bs => a == b && charsLeadWith as bs

/-- Auxiliary for the substring test: does `needle` occur in `haystack`? -/
def charsHaveSub : List Char → List Char → Bool
  | [], needle => charsLeadWith needle []
  | h :: rest, needle => charsLeadWith needle (h :: rest) || charsHaveSub rest needle

/-- Python substring membership `needle in haystack`. -/
def strContainsSub (haystack needle : String) : Bool :=
  charsHaveSub haystack.data needle.data

/-- One supply line of a package (the supply dicts of `metta_reasoner.py`,
fields `name` / `quantity` / `code`; every quantity in the source is a
non-negative int literal). -/
structure SupplyLine where
  name : String
  quantity : ℕ
  code : String
deriving DecidableEq

/-- The result dict of `_parse_mission_intent`. -/
structure Intent where
  type : String
  urgency : String
  location : Option String
  needs : List String
deriving DecidableEq

/-- `MettaHumanitarianReasoner._parse_mission_intent` (metta_reasoner.py
lines 143-177). -/
def parse_mission_intent (description : String) : Intent :=
  let desc_lower := strLower description
  let intent : Intent := { type := "general", urgency := "normal", location := none, needs := [] }
  let intent :=
    if ["medical", "health", "doctor", "hospital"].any (fun w => strContainsSub desc_lower w) then
      { intent with type := "medical-emergency", urgency := "urgent" }
    else if ["food", "hunger", "nutrition", "meal"].any (fun w => strContainsSub desc_lower w) then
      { intent with type := "food-security" }
    else if ["water", "clean", "purification"].any (fun w => strContainsSub desc_lower w) then
      { intent with type := "water-crisis", urgency := "critical" }
    else if ["shelter", "tent", "housing"].any (fun w => strContainsSub desc_lower w) then
      { intent with type := "shelter" }
    else intent
  let intent :=
    match ["gaza", "syria", "yemen", "sudan", "haiti", "ukraine", "afghanistan"].find?
        (fun loc => strContainsSub desc_lower loc) with
    | some loc => { intent with location := some (strCapitalize loc) }
    | none => intent
  let intent :=
    if ["urgent", "emergency", "immediate", "critical"].any (fun w => strContainsSub desc_lower w) then
      { intent with urgency := "urgent" }
    else intent
  intent

/-- The general humanitarian fallback package: the `else` branch of
`_recommend_supplies` (metta_reasoner.py lines 201-208). -/
def generalSupplies : List SupplyLine :=
  [⟨"Medical Kit - Basic", 5, "medical-kit-basic"⟩,
   ⟨"Food Package (Family)", 20, "food-package-family"⟩,
   ⟨"Water Purification Kit", 5, "water-purification-kit"⟩,
   ⟨"Shelter Tent (Family)", 10, "shelter-tent-family"⟩]

/-- `MettaHumanitarianReasoner._recommend_supplies` (metta_reasoner.py
lines 179-210); it reads only the `type` entry of the intent dict. -/
def recommend_supplies (intent : Intent) : List SupplyLine :=
  if intent.type = "medical-emergency" then
    [⟨"Medical Kit - Basic", 10, "medical-kit-basic"⟩,
     ⟨"Medical Kit - Advanced", 2, "medical-kit-advanced"⟩,
     ⟨"Water Purification Kit", 3, "water-purification-kit"⟩]
  else if intent.type = "food-security" then
    [⟨"Food Package (Family)", 50, "food-package-family"⟩,
     ⟨"Water Purification Kit", 5, "water-purification-kit"⟩]
  else if intent.type = "water-crisis" then
    [⟨"Water Purification Kit", 20, "water-purification-kit"⟩]
  else generalSupplies

/-- The `cost_map` table of `_estimate_costs`; unknown codes cost 100
(`cost_map.get(supply["code"], 100)`). -/
def costMap (code : String) : ℕ :=
  if code = "medical-kit-basic" then 250
  else if code = "medical-kit-advanced" then 1500
  else if code = "food-package-family" then 150
  else if code = "water-purification-kit" then 400
  else if code = "shelter-tent-family" then 800
  else if code = "clothing-package-adult" then 75
  else 100

/-- The `base_cost` accumulation loop of `_estimate_costs` (an int in the
source, since all unit costs and quantities are ints). -/
def baseCostNat (supplies : List SupplyLine) : ℕ :=
  supplies.foldl (fun acc s => acc + costMap s.code * s.quantity) 0

/-- The location matching of `_estimate_costs` (metta_reasoner.py
lines 230-244): the logistics multiplier (`multiplier = 1.0`, then `*= 1.4`,
`*= 1.6` or `*= 1.3` on an exact lower-cased match) together with the
accumulated risk-factor notes.  A `None` location (and likewise the falsy
empty string, which matches no region) leaves both untouched. -/
def regionFactors (location : Option String) : ℚ × List String :=
  match location with
  | none => (1, [])
  | some location =>
    let location_lower := strLower location
    if location_lower = "gaza" then
      (1 * (14/10), ["Access-limited region"])
    else if location_lower = "syria" ∨ location_lower = "yemen" then
      (1 * (16/10), ["Conflict zone"])
    else if location_lower = "sudan" ∨ location_lower = "haiti" then
      (1 * (13/10), ["Infrastructure challenges"])
    else (1, [])

/-- The result dict of `_estimate_costs`. -/
structure CostBreakdown where
  base_cost : ℚ
  logistics_cost : ℚ
  admin_cost : ℚ
  total : ℚ
  multiplier : ℚ
  risk_factors : List String
deriving DecidableEq

/-- `MettaHumanitarianReasoner._estimate_costs` (metta_reasoner.py
lines 212-261): base supply cost, logistics overhead
`base_cost * 0.20 * multiplier`, administrative overhead `base_cost * 0.05`,
and their sum, each reported rounded to two decimals. -/
def estimate_costs (supplies : List SupplyLine) (location : Option String) : CostBreakdown :=
  let base_cost : ℚ := (baseCostNat supplies : ℚ)
  let mr := regionFactors location
  let logistics_cost := base_cost * (20/100) * mr.1
  let admin_cost := base_cost * (5/100)
  let total := base_cost + logistics_cost + admin_cost
  { base_cost := round2 base_cost, logistics_cost := round2 logistics_cost,
    admin_cost := round2 admin_cost, total := round2 total,
    multiplier := mr.1, risk_factors := mr.2 }

/-- The `beneficiaries_map` table of `_estimate_impact`; unknown codes count 10
per package. -/
def beneficiariesMap (code : String) : ℕ :=
  if code = "medical-kit-basic" then 50
  else if code = "medical-kit-advanced" then 200
  else if code = "food-package-family" then 6
  else if code = "water-purification-kit" then 100
  else if code = "shelter-tent-family" then 6
  else 10

/-- The result dict of `_estimate_impact`. -/
structure Impact where
  beneficiaries : ℕ
  packages : ℕ
deriving DecidableEq

/-- `MettaHumanitarianReasoner._estimate_impact` (metta_reasoner.py
lines 263-281). -/
def estimate_impact (supplies : List SupplyLine) : Impact :=
  { beneficiaries := supplies.foldl (fun acc s => acc + beneficiariesMap s.code * s.quantity) 0,
    packages := (supplies.map (fun s => s.quantity)).sum }

/-- `MettaHumanitarianReasoner._estimate_timeline` (metta_reasoner.py
lines 283-299): 7 base days, 3 when urgent, 2 when critical; +7 for a
conflict-zone location, +3 for Gaza. -/
def estimate_timeline (urgency : String) (location : Option String) : ℕ :=
  let base_days := if urgency = "urgent" then 3 else if urgency = "critical" then 2 else 7
  match location with
  | none => base_days
  | some location =>
    let location_lower := strLower location
    if location_lower = "syria" ∨ location_lower = "yemen" then base_days + 7
    else if location_lower = "gaza" then base_days + 3
    else base_days

/-- `MettaHumanitarianReasoner._calculate_efficiency` (metta_reasoner.py
lines 301-321), applied to the cost dict's `total` and the impact dict's
`beneficiaries` — its only uses of its two arguments. -/
def calculate_efficiency (total : ℚ) (beneficiaries : ℤ) : ℤ :=
  if total = 0 then 0
  else
    let cost_per_person := total / max (beneficiaries : ℚ) 1
    let efficiency : ℤ :=
      if cost_per_person ≤ 20 then 100
      else if cost_per_person ≤ 50 then 100 - pyInt ((cost_per_person - 20) * 1)
      else max 50 (70 - pyInt ((cost_per_person - 50) * (5/10)))
    min 100 (max 0 efficiency)

/-- The urgency-bonus dict of `_calculate_priority_score`
(gdacs_analyzer.py lines 140-145), looked up with default 5. -/
def urgencyBonusTable (u : String) : ℤ :=
  if u = "critical" then 30
  else if u = "urgent" then 25
  else if u = "high" then 15
  else if u = "medium" then 10
  else 5

/-- `GDACSDisasterAnalyzer._calculate_priority_score` (gdacs_analyzer.py
lines 128-152); its only use of the mission-plan dict is its
`efficiency_score` entry, which is passed here directly. -/
def calculate_priority_score (severity : ℤ) (urgency : String) (efficiency_score : ℤ) : ℤ :=
  let severity_score := severity * 10
  let urgency_bonus := urgencyBonusTable (strLower urgency)
  let efficiency_bonus := pyInt ((efficiency_score : ℚ) * (2/10))
  min 100 (severity_score + urgency_bonus + efficiency_bonus)

/-- Auxiliary for thousands grouping: walks the reversed digit list, inserting
a comma before every digit whose index is a positive multiple of three. -/
def commaGroupRev : List Char → ℕ → List Char
  | [], _ => []
  | c :: cs, k =>
    if 0 < k ∧ k % 3 = 0 then ',' :: c :: commaGroupRev cs (k + 1)
    else c :: commaGroupRev cs (k + 1)

/-- Python format `:,` on a non-negative int: decimal digits grouped by
thousands. -/
def natComma (n : ℕ) : String :=
  String.mk ((commaGroupRev (toString n).data.reverse 0).reverse)

/-- Python format `:,.2f` on a non-negative amount: grouped digits and exactly
two decimal places. -/
def rat2f (q : ℚ) : String :=
  let cents := (round (q * 100)).toNat
  natComma (cents / 100) ++ "." ++ (if cents % 100 < 10 then "0" else "") ++ toString (cents % 100)

/-- Python format `:,` on a non-negative float amount whose decimal expansion
terminates within two places (the only amounts the source produces): grouped
digits and the float's shortest repr (`x.0` for whole numbers). -/
def ratComma (q : ℚ) : String :=
  if q.den = 1 then natComma q.num.toNat ++ ".0"
  else
    let cents := (round (q * 100)).toNat
    natComma (cents / 100) ++ "." ++
      (if cents % 10 = 0 then toString (cents % 100 / 10)
       else (if cents % 100 < 10 then "0" else "") ++ toString (cents % 100))

/-- `MettaHumanitarianReasoner._format_recommendation` (metta_reasoner.py
lines 323-338). -/
def format_recommendation (supplies : List SupplyLine) (cost : CostBreakdown) : String :=
  let supply_list :=
    String.intercalate "\n" (supplies.map (fun s => "- " ++ toString s.quantity ++ "x " ++ s.name))
  "**Recommended Supply Package:**\n\n" ++ supply_list ++
    "\n\n**Estimated Cost:** $" ++ rat2f cost.total ++ " PYUSD\n- Supplies: $" ++
    rat2f cost.base_cost ++ "\n- Logistics: $" ++ rat2f cost.logistics_cost ++
    "\n- Administrative: $" ++ rat2f cost.admin_cost ++ "\n"

/-- `MettaHumanitarianReasoner._generate_reasoning` (metta_reasoner.py
lines 340-354).  The `supplies` parameter is accepted and unused, as in the
source. -/
def generate_reasoning (intent : Intent) (supplies : List SupplyLine) (cost : CostBreakdown) : String :=
  let _ := supplies
  let reasoning := "Based on the mission type \x27" ++ intent.type ++ "\x27"
  let reasoning := reasoning ++
    (match intent.location with
     | some loc => " in " ++ loc
     | none => "")
  let reasoning := reasoning ++ ", I\x27ve optimized for " ++ intent.urgency ++ " response. "
  let reasoning := reasoning ++
    (if cost.risk_factors = [] then ""
     else "Risk factors: " ++ String.intercalate ", " cost.risk_factors ++ ". ")
  reasoning ++ "The supply mix balances immediate needs with cost-effectiveness."

/-- Values stored in the mission-plan dict returned by
`optimize_mission_plan`. -/
inductive PlanVal where
  | s (v : String)
  | q (v : ℚ)
  | z (v : ℤ)
  | n (v : ℕ)
  | lines (v : List SupplyLine)
  | strs (v : List String)

/-- `MettaHumanitarianReasoner.optimize_mission_plan(mission_description)`
(metta_reasoner.py lines 107-141): the returned dict, as a key/value list in
the source's construction order.  Note there is no `crisis_category` key. -/
def optimize_mission_plan (mission_description : String) : List (String × PlanVal) :=
  let intent := parse_mission_intent mission_description
  let supplies := recommend_supplies intent
  let cost_estimate := estimate_costs supplies intent.location
  let impact := estimate_impact supplies
  let timeline := estimate_timeline intent.urgency intent.location
  [("recommendation", PlanVal.s (format_recommendation supplies cost_estimate)),
   ("reasoning", PlanVal.s (generate_reasoning intent supplies cost_estimate)),
   ("estimated_cost", PlanVal.q cost_estimate.total),
   ("estimated_beneficiaries", PlanVal.n impact.beneficiaries),
   ("estimated_timeline", PlanVal.s (toString timeline ++ " days")),
   ("efficiency_score", PlanVal.z (calculate_efficiency cost_estimate.total (impact.beneficiaries : ℤ))),
   ("supplies", PlanVal.lines supplies),
   ("risk_factors", PlanVal.strs cost_estimate.risk_factors)]

/-- Typed read of a string entry of a plan dict (empty default). -/
def planStr (plan : List (String × PlanVal)) (key : String) : String :=
  match plan.lookup key with
  | some (PlanVal.s v) => v
  | _ => ""

/-- Typed read of a rational entry of a plan dict. -/
def planRat (plan : List (String × PlanVal)) (key : String) : ℚ :=
  match plan.lookup key with
  | some (PlanVal.q v) => v
  | _ => 0

/-- Typed read of an integer entry of a plan dict. -/
def planInt (plan : List (String × PlanVal)) (key : String) : ℤ :=
  match plan.lookup key with
  | some (PlanVal.z v) => v
  | _ => 0

/-- Typed read of a natural-number entry of a plan dict. -/
def planNat (plan : List (String × PlanVal)) (key : String) : ℕ :=
  match plan.lookup key with
  | some (PlanVal.n v) => v
  | _ => 0

/-- Typed read of a supply-list entry of a plan dict. -/
def planLines (plan : List (String × PlanVal)) (key : String) : List SupplyLine :=
  match plan.lookup key with
  | some (PlanVal.lines v) => v
  | _ => []

/-- A raw GDACS disaster record.  Optional fields model Python dict keys that
may be absent; `analyze_single_disaster` reads each with `.get` and a
default. -/
structure DisasterRecord where
  eventType : Option String := none
  typeName : Option String := none
  location : Option String := none
  severity : Option ℤ := none
  urgency : Option String := none
  title : Option String := none
  description : Option String := none
deriving DecidableEq

/-- `GDACSDisasterAnalyzer._map_event_to_crisis` (gdacs_analyzer.py
lines 114-126). -/
def map_event_to_crisis (event_type type_name : String) : String :=
  if event_type = "EQ" then "earthquake"
  else if event_type = "TC" then "cyclone"
  else if event_type = "FL" then "flood"
  else if event_type = "VO" then "volcano"
  else if event_type = "WF" then "wildfire"
  else if event_type = "DR" then "drought"
  else slugify type_name

/-- `GDACSDisasterAnalyzer._generate_recommendation` (gdacs_analyzer.py
lines 154-171); it reads the plan's `estimated_beneficiaries`,
`estimated_cost` and `estimated_timeline` entries, passed here directly. -/
def generate_recommendation (type_name location urgency : String)
    (beneficiaries : ℕ) (cost : ℚ) (timeline : String) : String :=
  let recommendation :=
    "Recommended emergency response for " ++ type_name ++ " in " ++ location ++
    ". Deploy within " ++ timeline ++ " to reach approximately " ++ natComma beneficiaries ++
    " beneficiaries. Estimated cost: $" ++ ratComma cost ++ "."
  if strLower urgency = "critical" ∨ strLower urgency = "urgent" then
    recommendation ++ " IMMEDIATE ACTION REQUIRED."
  else recommendation

/-- `GDACSDisasterAnalyzer._identify_risk_factors` (gdacs_analyzer.py
lines 173-204).  The region table is scanned in insertion order and stops at
the first substring match, as the source's `for`/`break` does. -/
def identify_risk_factors (location urgency : String) (severity : ℤ) : List String :=
  let risks : List String := []
  let risks :=
    if strLower urgency = "critical" ∨ strLower urgency = "urgent" then
      risks ++ ["High urgency requires expedited delivery"]
    else risks
  let risks :=
    if 4 ≤ severity then
      risks ++ ["High severity crisis with potential access challenges"]
    else risks
  let location_lower := strLower location
  let regionRisk : Option String :=
    if strContainsSub location_lower "gaza" then some "Restricted access zone with security concerns"
    else if strContainsSub location_lower "syria" then some "Active conflict zone requiring security protocols"
    else if strContainsSub location_lower "yemen" then some "Restricted access with logistics challenges"
    else if strContainsSub location_lower "haiti" then some "Infrastructure damage may affect delivery"
    else if strContainsSub location_lower "afghanistan" then some "Security clearance required"
    else none
  let risks :=
    match regionRisk with
    | some r => risks ++ [r]
    | none => risks
  if risks = [] then ["Standard logistics challenges"] else risks

/-- The parameter list, besides `self`, of
`MettaHumanitarianReasoner.optimize_mission_plan` (metta_reasoner.py
line 107): a single positional parameter. -/
def optimizeMissionPlanParams : List String := ["mission_description"]

/-- The TypeError CPython raises when a call passes a keyword argument the
callee does not accept. -/
def typeErrorMsg : String :=
  "TypeError: optimize_mission_plan() got an unexpected keyword argument"

/-- CPython's binding rule for a call made purely with keyword arguments:
a keyword absent from the callee's parameter list raises TypeError, as does a
parameter left unbound; otherwise the positional argument list results. -/
def bindKeywordCall (params : List String) (kwargs : List (String × String)) :
    Except String (List String) :=
  if kwargs.any (fun kv => !params.contains kv.1) then
    Except.error typeErrorMsg
  else if params.any (fun p => !(kwargs.map Prod.fst).contains p) then
    Except.error "TypeError: missing a required argument"
  else
    Except.ok (params.map (fun p => (kwargs.lookup p).getD ""))

/-- The analysis dict built by `analyze_single_disaster` (gdacs_analyzer.py
lines 88-112): the wrapped disaster fields, the `mission_plan` sub-dict's
fields, and the priority score. -/
structure DisasterAnalysis where
  title : String
  location : String
  eventType : String
  typeName : String
  severity : ℤ
  urgency : String
  description : String
  plan_crisis_type : String
  plan_supplies : List SupplyLine
  plan_estimated_cost : ℚ
  plan_estimated_beneficiaries : ℕ
  plan_estimated_timeline : String
  plan_efficiency_score : ℤ
  plan_reasoning : String
  plan_recommendation : String
  plan_risk_factors : List String
  priority_score : ℤ

/-- `GDACSDisasterAnalyzer.analyze_single_disaster` (gdacs_analyzer.py
lines 47-112).  It extracts the record's fields with `.get` defaults, then
calls `optimize_mission_plan` with the keyword arguments `crisis_type`,
`location` and `urgency` (lines 71-75).  That method accepts only the single
positional parameter `mission_description`, so the call raises TypeError
(`bindKeywordCall`); the remainder of the body — which, were the call ever to
bind, would next hit a KeyError at `mission_plan["crisis_category"]`
(line 100) — is unreachable but embedded faithfully. -/
def analyze_single_disaster (disaster : DisasterRecord) : Except String DisasterAnalysis :=
  let event_type := disaster.eventType.getD "DR"
  let type_name := disaster.typeName.getD "Disaster"
  let location := disaster.location.getD "Unknown"
  let severity := disaster.severity.getD 3
  let urgency := disaster.urgency.getD "medium"
  let title := disaster.title.getD "Disaster Event"
  let description := disaster.description.getD ""
  let crisis_type := map_event_to_crisis event_type type_name
  match bindKeywordCall optimizeMissionPlanParams
      [("crisis_type", crisis_type), ("location", location), ("urgency", urgency)] with
  | Except.error e => Except.error e
  | Except.ok args =>
    match args with
    | [mission_description] =>
      let mission_plan := optimize_mission_plan mission_description
      match mission_plan.lookup "crisis_category" with
      | none => Except.error "KeyError: crisis_category"
      | some _ =>
        let efficiency_score := planInt mission_plan "efficiency_score"
        let priority_score := calculate_priority_score severity urgency efficiency_score
        let recommendation := generate_recommendation type_name location urgency
          (planNat mission_plan "estimated_beneficiaries")
          (planRat mission_plan "estimated_cost")
          (planStr mission_plan "estimated_timeline")
        let risk_factors := identify_risk_factors location urgency severity
        Except.ok
          { title, location, eventType := event_type, typeName := type_name,
            severity, urgency, description,
            plan_crisis_type := planStr mission_plan "crisis_category",
            plan_supplies := planLines mission_plan "supplies",
            plan_estimated_cost := planRat mission_plan "estimated_cost",
            plan_estimated_beneficiaries := planNat mission_plan "estimated_beneficiaries",
            plan_estimated_timeline := planStr mission_plan "estimated_timeline",
            plan_efficiency_score := efficiency_score,
            plan_reasoning := planStr mission_plan "reasoning",
            plan_recommendation := recommendation,
            plan_risk_factors := risk_factors,
            priority_score }
    | _ => Except.error typeErrorMsg

/-- `GDACSDisasterAnalyzer.analyze_disasters` (gdacs_analyzer.py lines 21-45):
caps the batch at the first 10 records, appends each record's analysis and
skips (logs) any record whose analysis raises, then sorts by
`priority_score` descending — a stable sort, as Python's `list.sort` with
`reverse=True`. -/
def analyze_disasters (disasters : List DisasterRecord) : List DisasterAnalysis :=
  let analyses := (disasters.take 10).foldl
    (fun acc d =>
      match analyze_single_disaster d with
      | Except.ok analysis => acc ++ [analysis]
      | Except.error _ => acc) []
  analyses.mergeSort (fun a b => decide (b.priority_score ≤ a.priority_score))

/-! ### Spec-side definitions

These follow the specification's words, for comparison with the definitions
above that were translated from the source. -/

/-- The efficiency policy exactly as claim C3 words it: real-valued,
no truncation, clamped to [0, 100]. -/
def specEfficiencyPolicy (total : ℚ) (beneficiaries : ℤ) : ℚ :=
  let perPerson := total / max (beneficiaries : ℚ) 1
  let score : ℚ :=
    if perPerson ≤ 20 then 100
    else if perPerson ≤ 50 then 100 - (perPerson - 20)
    else max 50 (70 - (5/10) * (perPerson - 50))
  min 100 (max 0 score)

/-- Claim C3 amended: the linear terms are truncated to integers (Python
`int()`, i.e. the floor on these non-negative arguments), and a zero total
yields score 0. -/
def specEfficiencyAmended (total : ℚ) (beneficiaries : ℤ) : ℤ :=
  if total = 0 then 0
  else
    let perPerson := total / max (beneficiaries : ℚ) 1
    let score : ℤ :=
      if perPerson ≤ 20 then 100
      else if perPerson ≤ 50 then 100 - ⌊perPerson - 20⌋
      else max 50 (70 - ⌊(5/10) * (perPerson - 50)⌋)
    min 100 (max 0 score)

/-- The priority formula exactly as claim C4 words it: the efficiency bonus is
`round(efficiencyScore * 0.2)`. -/
def specPriorityFormula (severity : ℤ) (urgency : String) (efficiencyScore : ℤ) : ℤ :=
  min 100 (severity * 10 + urgencyBonusTable (strLower urgency) +
    round ((efficiencyScore : ℚ) * (2/10)))

/-- Claim C4 amended: the efficiency bonus is truncated
(`int(efficiency_score * 0.2)`, the floor on this non-negative argument)
rather than rounded. -/
def specPriorityAmended (severity : ℤ) (urgency : String) (efficiencyScore : ℤ) : ℤ :=
  min 100 (severity * 10 + urgencyBonusTable (strLower urgency) +
    ⌊(efficiencyScore : ℚ) * (2/10)⌋)

/-- Claim C8's notion of a location matching the cost table's known
high-difficulty regions. -/
def matchesKnownRegion (location : Option String) : Bool :=
  match location with
  | none => false
  | some s => ["gaza", "syria", "yemen", "sudan", "haiti"].contains (strLower s)

/-- The curve inside `calculate_efficiency` for a non-zero total, with the
truncations rewritten as floors of their non-negative arguments (proved
equivalent below); used to factor the monotonicity argument. -/
def effCurve (cpp : ℚ) : ℤ :=
  if cpp ≤ 20 then 100
  else if cpp ≤ 50 then 100 - ⌊cpp - 20⌋
  else max 50 (70 - ⌊(cpp - 50) * (5/10)⌋)

/-! ### Concrete inputs for the scenario claims -/

/-- The crisis description of claim C5: category "earthquake",
location "Gaza", urgency "critical". -/
def c5Intent : Intent :=
  { type := "earthquake", urgency := "critical", location := some "Gaza", needs := [] }

/-- A fully well-formed GDACS record (all fields present and of the expected
shape). -/
def validGazaRecord : DisasterRecord :=
  { eventType := some "EQ", typeName := some "Earthquake", location := some "Gaza",
    severity := some 4, urgency := some "critical",
    title := some "Magnitude 6 earthquake strikes Gaza",
    description := some "Severe structural damage reported" }

/-- A malformed record: every field missing. -/
def malformedRecord : DisasterRecord := {}

/-- Claim C1's failing batch: one well-formed record together with one
malformed record (N = 1). -/
def c1Batch : List DisasterRecord := [validGazaRecord, malformedRecord]

/-! ### Helper lemmas -/

theorem pyInt_of_nonneg {q : ℚ} (h : 0 ≤ q) : pyInt q = ⌊q⌋ := by
  unfold pyInt
  rw [if_neg (not_lt.mpr h)]

theorem pyInt_nonneg {q : ℚ} (h : 0 ≤ q) : 0 ≤ pyInt q := by
  rw [pyInt_of_nonneg h]
  exact Int.floor_nonneg.mpr h

theorem round2_div100 (k : ℕ) : round2 ((k : ℚ) / 100) = (k : ℚ) / 100 := by
  unfold round2
  rw [div_mul_cancel₀ _ (by norm_num : (100:ℚ) ≠ 0), round_natCast]
  push_cast
  ring

theorem round2_natCast (n : ℕ) : round2 (n : ℚ) = (n : ℚ) := by
  have h : ((n : ℚ)) = ((100 * n : ℕ) : ℚ) / 100 := by push_cast; ring
  rw [h, round2_div100]

theorem analyze_single_disaster_err (d : DisasterRecord) :
    analyze_single_disaster d = Except.error typeErrorMsg := rfl

theorem analyze_foldl_empty (l : List DisasterRecord) (acc : List DisasterAnalysis) :
    l.foldl (fun acc d =>
      match analyze_single_disaster d with
      | Except.ok analysis => acc ++ [analysis]
      | Except.error _ => acc) acc = acc := by
  induction l generalizing acc with
  | nil => rfl
  | cons d rest ih =>
    rw [List.foldl_cons, analyze_single_disaster_err d]
    exact ih acc

theorem analyze_disasters_empty (batch : List DisasterRecord) :
    analyze_disasters batch = [] := by
  simp only [analyze_disasters]
  rw [analyze_foldl_empty]
  exact List.mergeSort_nil

theorem foldl_add_map {α : Type} (g : α → ℕ) : ∀ (l : List α) (n : ℕ),
    l.foldl (fun acc s => acc + g s) n = n + (l.map g).sum
  | [], n => by simp
  | s :: rest, n => by
    rw [List.foldl_cons, foldl_add_map g rest (n + g s), List.map_cons, List.sum_cons]
    omega

theorem baseCostNat_eq_sum (supplies : List SupplyLine) :
    baseCostNat supplies = (supplies.map (fun s => costMap s.code * s.quantity)).sum := by
  unfold baseCostNat
  simpa using foldl_add_map (fun s => costMap s.code * s.quantity) supplies 0

theorem regionFactors_cases (location : Option String) :
    ∃ m : ℕ, (m = 10 ∨ m = 13 ∨ m = 14 ∨ m = 16) ∧
      (regionFactors location).1 = (m : ℚ) / 10 := by
  match location with
  | none => exact ⟨10, Or.inl rfl, by norm_num [regionFactors]⟩
  | some loc =>
    simp only [regionFactors]
    split_ifs with h1 h2 h3
    · exact ⟨14, Or.inr (Or.inr (Or.inl rfl)), by norm_num⟩
    · exact ⟨16, Or.inr (Or.inr (Or.inr rfl)), by norm_num⟩
    · exact ⟨13, Or.inr (Or.inl rfl), by norm_num⟩
    · exact ⟨10, Or.inl rfl, by norm_num⟩

theorem regionFactors_unmatched (location : Option String)
    (h : matchesKnownRegion location = false) : (regionFactors location).1 = 1 := by
  match location with
  | none => rfl
  | some s =>
    simp only [matchesKnownRegion, List.contains_cons, List.contains_nil,
      Bool.or_eq_false_iff, beq_eq_false_iff_ne, ne_eq] at h
    simp only [regionFactors]
    split_ifs with h1 h2 h3
    · exact absurd h1 h.1
    · rcases h2 with h2 | h2
      · exact absurd h2 h.2.1
      · exact absurd h2 h.2.2.1
    · rcases h3 with h3 | h3
      · exact absurd h3 h.2.2.2.1
      · exact absurd h3 h.2.2.2.2.1
    · norm_num

theorem estimate_costs_fields (supplies : List SupplyLine) (location : Option String) :
    ∃ n m : ℕ, (m = 10 ∨ m = 13 ∨ m = 14 ∨ m = 16) ∧
      n = baseCostNat supplies ∧
      (regionFactors location).1 = (m : ℚ) / 10 ∧
      estimate_costs supplies location =
        { base_cost := (n : ℚ),
          logistics_cost := ((2 * m * n : ℕ) : ℚ) / 100,
          admin_cost := ((5 * n : ℕ) : ℚ) / 100,
          total := (((100 + 2 * m + 5) * n : ℕ) : ℚ) / 100,
          multiplier := (m : ℚ) / 10,
          risk_factors := (regionFactors location).2 } := by
  obtain ⟨m, hm, hmul⟩ := regionFactors_cases location
  refine ⟨baseCostNat supplies, m, hm, rfl, hmul, ?_⟩
  simp only [estimate_costs]
  rw [hmul]
  rw [show ((baseCostNat supplies : ℚ) * (20/100) * ((m:ℚ)/10))
      = ((2 * m * baseCostNat supplies : ℕ) : ℚ) / 100 from by push_cast; ring]
  rw [show ((baseCostNat supplies : ℚ) * (5/100))
      = ((5 * baseCostNat supplies : ℕ) : ℚ) / 100 from by push_cast; ring]
  rw [show ((baseCostNat supplies : ℚ) + ((2 * m * baseCostNat supplies : ℕ) : ℚ) / 100
        + ((5 * baseCostNat supplies : ℕ) : ℚ) / 100)
      = (((100 + 2 * m + 5) * baseCostNat supplies : ℕ) : ℚ) / 100 from by push_cast; ring]
  rw [round2_natCast, round2_div100, round2_div100, round2_div100]

theorem calculate_efficiency_of_ne_zero (total : ℚ) (b : ℤ) (h : total ≠ 0) :
    calculate_efficiency total b = min 100 (max 0 (effCurve (total / max (b : ℚ) 1))) := by
  have hcurve : ∀ cpp : ℚ,
      (if cpp ≤ 20 then (100:ℤ)
       else if cpp ≤ 50 then 100 - pyInt ((cpp - 20) * 1)
       else max 50 (70 - pyInt ((cpp - 50) * (5/10)))) = effCurve cpp := by
    intro cpp
    unfold effCurve
    by_cases h1 : cpp ≤ 20
    · rw [if_pos h1, if_pos h1]
    · have h1lt := not_le.mp h1
      rw [if_neg h1, if_neg h1]
      by_cases h2 : cpp ≤ 50
      · rw [if_pos h2, if_pos h2, mul_one,
          pyInt_of_nonneg (by linarith : (0:ℚ) ≤ cpp - 20)]
      · have h2lt := not_le.mp h2
        rw [if_neg h2, if_neg h2,
          pyInt_of_nonneg (mul_nonneg (by linarith : (0:ℚ) ≤ cpp - 50) (by norm_num))]
  simp only [calculate_efficiency]
  rw [if_neg h, hcurve]

theorem clamp_nonneg (x : ℤ) : 0 ≤ min 100 (max 0 x) :=
  le_min (by norm_num) (le_max_left 0 x)

theorem clamp_le_100 (x : ℤ) : min 100 (max 0 x) ≤ 100 := min_le_left _ _

theorem effCurve_anti {q1 q2 : ℚ} (h : q1 ≤ q2) : effCurve q2 ≤ effCurve q1 := by
  unfold effCurve
  by_cases a1 : q1 ≤ 20
  · rw [if_pos a1]
    by_cases b1 : q2 ≤ 20
    · rw [if_pos b1]
    · rw [if_neg b1]
      have b1lt := not_le.mp b1
      by_cases b2 : q2 ≤ 50
      · rw [if_pos b2]
        have hf : (0:ℤ) ≤ ⌊q2 - 20⌋ := Int.floor_nonneg.mpr (by linarith)
        omega
      · have b2lt := not_le.mp b2
        rw [if_neg b2]
        have hf : (0:ℤ) ≤ ⌊(q2 - 50) * (5/10)⌋ :=
          Int.floor_nonneg.mpr (mul_nonneg (by linarith) (by norm_num))
        exact max_le (by norm_num) (by omega)
  · have a1lt := not_le.mp a1
    have b1 : ¬ q2 ≤ 20 := by intro hb; exact a1 (le_trans h hb)
    rw [if_neg a1, if_neg b1]
    by_cases a2 : q1 ≤ 50
    · rw [if_pos a2]
      by_cases b2 : q2 ≤ 50
      · rw [if_pos b2]
        have := Int.floor_mono (show q1 - 20 ≤ q2 - 20 by linarith)
        omega
      · have b2lt := not_le.mp b2
        rw [if_neg b2]
        have hf30 : ⌊q1 - 20⌋ ≤ 30 := by
          calc ⌊q1 - 20⌋ ≤ ⌊(30:ℚ)⌋ := Int.floor_mono (by linarith)
          _ = 30 := by norm_num
        have hfnn : (0:ℤ) ≤ ⌊(q2 - 50) * (5/10)⌋ :=
          Int.floor_nonneg.mpr (mul_nonneg (by linarith) (by norm_num))
        exact max_le (by omega) (by omega)
    · have a2lt := not_le.mp a2
      have b2 : ¬ q2 ≤ 50 := by intro hb; exact a2 (le_trans h hb)
      rw [if_neg a2, if_neg b2]
      have := Int.floor_mono
        (show (q1 - 50) * (5/10) ≤ (q2 - 50) * (5/10) by linarith)
      exact max_le_max le_rfl (by omega)

theorem strLower_gaza : strLower "Gaza" = "gaza" := rfl

theorem regionFactors_gaza :
    regionFactors (some "Gaza") = (14/10, ["Access-limited region"]) := by
  simp only [regionFactors, strLower_gaza]
  norm_num

theorem baseCostNat_general : baseCostNat generalSupplies = 14250 := rfl

theorem impact_general : (estimate_impact generalSupplies).beneficiaries = 930 := rfl

theorem cost_gaza : estimate_costs generalSupplies (some "Gaza") =
    { base_cost := 14250, logistics_cost := 3990, admin_cost := 1425/2,
      total := 37905/2, multiplier := 14/10,
      risk_factors := ["Access-limited region"] } := by
  simp only [estimate_costs, baseCostNat_general, regionFactors_gaza]
  rw [show ((14250:ℕ):ℚ) * (20/100) * (14/10) = ((399000:ℕ):ℚ)/100 from by push_cast; norm_num]
  rw [show ((14250:ℕ):ℚ) * (5/100) = ((71250:ℕ):ℚ)/100 from by push_cast; norm_num]
  rw [show ((14250:ℕ):ℚ) + ((399000:ℕ):ℚ)/100 + ((71250:ℕ):ℚ)/100 = ((1895250:ℕ):ℚ)/100
      from by push_cast; norm_num]
  rw [round2_natCast, round2_div100, round2_div100, round2_div100]
  norm_num [CostBreakdown.mk.injEq]

theorem cpp_gaza : (37905/2 : ℚ) / max ((930:ℤ) : ℚ) 1 = 2527/124 := by
  push_cast
  rw [max_eq_left (by norm_num : (1:ℚ) ≤ 930)]
  norm_num

theorem eff_gaza : calculate_efficiency (37905/2) 930 = 100 := by
  rw [calculate_efficiency_of_ne_zero _ _ (by norm_num), cpp_gaza]
  unfold effCurve
  rw [if_neg (by norm_num), if_pos (by norm_num)]
  rw [show ⌊(2527/124 : ℚ) - 20⌋ = 0 from by norm_num [Int.floor_eq_iff]]
  norm_num

theorem spec_policy_gaza : specEfficiencyPolicy (37905/2) 930 = 12353/124 := by
  simp only [specEfficiencyPolicy]
  rw [cpp_gaza]
  rw [if_neg (by norm_num), if_pos (by norm_num)]
  rw [max_eq_right (by norm_num : (0:ℚ) ≤ 100 - (2527/124 - 20)),
    min_eq_right (by norm_num : (100 - (2527/124 - 20) : ℚ) ≤ 100)]
  norm_num

theorem c5_supplies : recommend_supplies c5Intent = generalSupplies := rfl

theorem c5_multiplier :
    (estimate_costs (recommend_supplies c5Intent) c5Intent.location).multiplier = 14/10 := by
  rw [c5_supplies, show c5Intent.location = some "Gaza" from rfl, cost_gaza]

theorem c5_efficiency :
    calculate_efficiency (estimate_costs (recommend_supplies c5Intent) c5Intent.location).total
      ((estimate_impact (recommend_supplies c5Intent)).beneficiaries : ℤ) = 100 := by
  rw [c5_supplies, show c5Intent.location = some "Gaza" from rfl, cost_gaza, impact_general]
  exact_mod_cast eff_gaza

/-! ### Claim theorems -/

/-- Claim C1 (code bug): the claim says a batch containing one malformed
record among N valid ones yields N analyses.  The loop of `analyze_disasters`
does isolate per-record failures, but `analyze_single_disaster` calls
`optimize_mission_plan` with keyword arguments the method does not accept, so
every record — valid or malformed — raises TypeError and is skipped: the batch
of one valid and one malformed record yields 0 analyses, not 1. -/
theorem analyze_disasters_drops_valid_record :
    analyze_disasters c1Batch = [] :=
  analyze_disasters_empty c1Batch

/-- Claim C2: for every disaster record, `analyze_single_disaster` raises
TypeError (it invokes `optimize_mission_plan` with keyword arguments
`crisis_type`, `location` and `urgency`, but that method accepts only the
single positional `mission_description`), so every record is caught and
skipped and `analyze_disasters` returns the empty list for every batch. -/
theorem analyze_single_disaster_type_error_empty_batch :
    (∀ d : DisasterRecord, analyze_single_disaster d = Except.error typeErrorMsg) ∧
    (∀ batch : List DisasterRecord, analyze_disasters batch = []) :=
  ⟨analyze_single_disaster_err, analyze_disasters_empty⟩

/-- Claim C3, counterexample: on the mission actually planned for a general
package in Gaza (total 18952.50, 930 beneficiaries, perPerson ≈ 20.38), the
code returns efficiency 100 while the claim's real-valued policy
`100 - (perPerson - 20)` gives 12353/124 ≈ 99.62 — the code truncates the
linear term with `int()`. -/
theorem calculate_efficiency_deviates_from_spec_policy :
    ((calculate_efficiency (estimate_costs generalSupplies (some "Gaza")).total
        ((estimate_impact generalSupplies).beneficiaries : ℤ) : ℤ) : ℚ) ≠
      specEfficiencyPolicy (estimate_costs generalSupplies (some "Gaza")).total
        ((estimate_impact generalSupplies).beneficiaries : ℤ) := by
  rw [cost_gaza, impact_general]
  dsimp only
  rw [show ((930:ℕ):ℤ) = (930:ℤ) from by norm_num, eff_gaza, spec_policy_gaza]
  norm_num

/-- Claim C3 amended: the efficiency score equals the piecewise policy with
the linear terms truncated to integers (`int()`, the floor on these
non-negative arguments) — 100 when perPerson ≤ 20; `100 - ⌊perPerson - 20⌋`
when 20 < perPerson ≤ 50; `max(50, 70 - ⌊0.5 * (perPerson - 50)⌋)` when
perPerson > 50 — clamped to [0, 100], and a zero total yields score 0. -/
theorem calculate_efficiency_matches_truncated_policy :
    ∀ (total : ℚ) (beneficiaries : ℤ),
      calculate_efficiency total beneficiaries = specEfficiencyAmended total beneficiaries := by
  intro t b
  by_cases h : t = 0
  · simp [calculate_efficiency, specEfficiencyAmended, h]
  · rw [calculate_efficiency_of_ne_zero t b h]
    simp only [specEfficiencyAmended]
    rw [if_neg h]
    have hc : effCurve (t / max (b:ℚ) 1) =
        (if t / max (b:ℚ) 1 ≤ 20 then (100:ℤ)
         else if t / max (b:ℚ) 1 ≤ 50 then 100 - ⌊t / max (b:ℚ) 1 - 20⌋
         else max 50 (70 - ⌊(5/10) * (t / max (b:ℚ) 1 - 50)⌋)) := by
      unfold effCurve
      rw [mul_comm (t / max (b:ℚ) 1 - 50) ((5:ℚ)/10)]
    rw [hc]

/-- Claim C4, counterexample: for severity 3, urgency "medium" and a plan
efficiency score of 53, the code computes `int(53 * 0.2) = 10` (priority 50)
while the claim's `round(53 * 0.2) = 11` gives priority 51. -/
theorem priority_score_deviates_from_rounded_formula :
    calculate_priority_score 3 "medium" 53 ≠ specPriorityFormula 3 "medium" 53 := by
  simp only [calculate_priority_score, specPriorityFormula]
  rw [pyInt_of_nonneg (by norm_num : (0:ℚ) ≤ ((53:ℤ):ℚ) * (2/10))]
  rw [show (((53:ℤ):ℚ) * (2/10)) = 53/5 from by push_cast; norm_num]
  rw [show ⌊(53/5 : ℚ)⌋ = 10 from by norm_num [Int.floor_eq_iff]]
  rw [round_eq, show (53/5 : ℚ) + 1/2 = 111/10 from by norm_num,
      show ⌊(111/10 : ℚ)⌋ = 11 from by norm_num [Int.floor_eq_iff]]
  rw [show strLower "medium" = "medium" from rfl]
  rw [show urgencyBonusTable "medium" = 10 from rfl]
  norm_num

/-- Claim C4 amended: for every severity, urgency string, and (non-negative)
plan efficiency score, the priority equals
`min(100, severity*10 + urgencyBonus + ⌊efficiencyScore * 0.2⌋)` — truncation
(`int()`), not rounding — with the urgency bonus 30 for critical, 25 for
urgent, 15 for high, 10 for medium and 5 otherwise. -/
theorem priority_score_matches_truncated_formula :
    ∀ (severity : ℤ) (urgency : String) (efficiencyScore : ℕ),
      calculate_priority_score severity urgency (efficiencyScore : ℤ) =
        specPriorityAmended severity urgency (efficiencyScore : ℤ) := by
  intro s u e
  simp only [calculate_priority_score, specPriorityAmended]
  rw [pyInt_of_nonneg (mul_nonneg (by positivity) (by norm_num))]

/-- Claim C5, counterexample: for category "earthquake", location "Gaza",
urgency "critical", the claimed conjunction fails — the regional multiplier
the code assigns to Gaza is 1.4, not 1.5 (and the timeline string is plainly
"5 days", with no access-delay qualifier). -/
theorem gaza_earthquake_scenario_refuted :
    ¬ ((∃ s ∈ recommend_supplies c5Intent, strContainsSub s.code "medical" = true) ∧
       (∃ s ∈ recommend_supplies c5Intent, strContainsSub s.code "shelter" = true) ∧
       (∃ s ∈ recommend_supplies c5Intent, strContainsSub s.code "water" = true) ∧
       (estimate_costs (recommend_supplies c5Intent) c5Intent.location).multiplier = 15/10 ∧
       50 ≤ calculate_efficiency
         (estimate_costs (recommend_supplies c5Intent) c5Intent.location).total
         ((estimate_impact (recommend_supplies c5Intent)).beneficiaries : ℤ) ∧
       strContainsSub (toString (estimate_timeline c5Intent.urgency c5Intent.location) ++ " days")
         "access" = true) := by
  intro h
  have hmult := h.2.2.2.1
  rw [c5_multiplier] at hmult
  norm_num at hmult

/-- Claim C5 amended: for category "earthquake", location "Gaza", urgency
"critical", the supplies include a medical, a shelter and a water item; the
regional multiplier equals 1.4; the efficiency score is 100 ≥ 50; and instead
of a textual access-delay qualifier the timeline is extended by 3 days for
Gaza's access restrictions (5 days total, rendered "5 days"). -/
theorem gaza_earthquake_scenario_amended :
    (∃ s ∈ recommend_supplies c5Intent, strContainsSub s.code "medical" = true) ∧
    (∃ s ∈ recommend_supplies c5Intent, strContainsSub s.code "shelter" = true) ∧
    (∃ s ∈ recommend_supplies c5Intent, strContainsSub s.code "water" = true) ∧
    (estimate_costs (recommend_supplies c5Intent) c5Intent.location).multiplier = 14/10 ∧
    50 ≤ calculate_efficiency
      (estimate_costs (recommend_supplies c5Intent) c5Intent.location).total
      ((estimate_impact (recommend_supplies c5Intent)).beneficiaries : ℤ) ∧
    estimate_timeline c5Intent.urgency c5Intent.location =
      estimate_timeline c5Intent.urgency none + 3 := by
  refine ⟨by decide, by decide, by decide, c5_multiplier, ?_, rfl⟩
  rw [c5_efficiency]
  norm_num

/-- Claim C6: for every supply list and location, the cost computation uses
one fixed logistics rate r = 0.20 ∈ [0.20, 0.25]:
`baseCost = Σ unitCost(code) * quantity`,
`logisticsCost = baseCost * r * regionalMultiplier`,
`administrativeCost = baseCost * 0.05`, and
`total = baseCost + logisticsCost + administrativeCost` (the two-decimal
rounding the source applies is exact on these values). -/
theorem estimate_costs_policy :
    ∃ r : ℚ, 20/100 ≤ r ∧ r ≤ 25/100 ∧
      ∀ (supplies : List SupplyLine) (location : Option String),
        (estimate_costs supplies location).base_cost =
          ((supplies.map (fun s => costMap s.code * s.quantity)).sum : ℚ) ∧
        (estimate_costs supplies location).logistics_cost =
          (estimate_costs supplies location).base_cost * r *
            (estimate_costs supplies location).multiplier ∧
        (estimate_costs supplies location).admin_cost =
          (estimate_costs supplies location).base_cost * (5/100) ∧
        (estimate_costs supplies location).total =
          (estimate_costs supplies location).base_cost +
          (estimate_costs supplies location).logistics_cost +
          (estimate_costs supplies location).admin_cost := by
  refine ⟨20/100, le_refl _, by norm_num, fun supplies location => ?_⟩
  obtain ⟨n, m, hm, hn, hmul, heq⟩ := estimate_costs_fields supplies location
  rw [heq]
  dsimp only
  refine ⟨?_, ?_, ?_, ?_⟩
  · rw [hn, baseCostNat_eq_sum]
  · push_cast
    ring
  · push_cast
    ring
  · push_cast
    ring

/-- Claim C7, counterexample: monotonicity in perPerson fails at a zero
total — the input (total 0, 5 beneficiaries) has perPerson 0 ≤ 20 =
perPerson of (total 20, 1 beneficiary), yet scores 0 < 100, because a zero
total short-circuits to efficiency 0. -/
theorem efficiency_monotonicity_refuted_at_zero_total :
    (0:ℚ) / max ((5:ℤ) : ℚ) 1 ≤ (20:ℚ) / max ((1:ℤ) : ℚ) 1 ∧
    calculate_efficiency 0 5 < calculate_efficiency 20 1 := by
  have e2 : calculate_efficiency 20 1 = 100 := by
    rw [calculate_efficiency_of_ne_zero _ _ (by norm_num)]
    rw [show (20:ℚ) / max ((1:ℤ):ℚ) 1 = 20 from by push_cast; rw [max_self]; norm_num]
    unfold effCurve
    rw [if_pos le_rfl]
    norm_num
  constructor
  · rw [show ((0:ℚ) / max ((5:ℤ):ℚ) 1) = 0 from by simp]
    rw [show (20:ℚ) / max ((1:ℤ):ℚ) 1 = 20 from by push_cast; rw [max_self]; norm_num]
    norm_num
  · rw [show calculate_efficiency 0 5 = 0 from by simp [calculate_efficiency], e2]
    norm_num

/-- Claim C7 amended: the efficiency score always lies in [0, 100], and for
inputs with positive totals it is monotonically non-increasing in
perPerson = total / max(beneficiaries, 1). -/
theorem efficiency_bounds_and_monotonicity :
    (∀ (total : ℚ) (beneficiaries : ℤ),
      0 ≤ calculate_efficiency total beneficiaries ∧
      calculate_efficiency total beneficiaries ≤ 100) ∧
    (∀ (t1 : ℚ) (b1 : ℤ) (t2 : ℚ) (b2 : ℤ), 0 < t1 → 0 < t2 →
      t1 / max (b1 : ℚ) 1 ≤ t2 / max (b2 : ℚ) 1 →
      calculate_efficiency t2 b2 ≤ calculate_efficiency t1 b1) := by
  constructor
  · intro t b
    by_cases h : t = 0
    · simp [calculate_efficiency, h]
    · rw [calculate_efficiency_of_ne_zero t b h]
      exact ⟨clamp_nonneg _, clamp_le_100 _⟩
  · intro t1 b1 t2 b2 h1 h2 hle
    rw [calculate_efficiency_of_ne_zero t1 b1 (ne_of_gt h1),
        calculate_efficiency_of_ne_zero t2 b2 (ne_of_gt h2)]
    exact min_le_min le_rfl (max_le_max le_rfl (effCurve_anti hle))

/-- Witness for C7's amended theorem at totals 30 and 60 with one
beneficiary each. -/
theorem efficiency_bounds_and_monotonicity_witness :
    (0:ℚ) < 30 ∧ (0:ℚ) < 60 ∧
    (30:ℚ) / max ((1:ℤ):ℚ) 1 ≤ (60:ℚ) / max ((1:ℤ):ℚ) 1 ∧
    calculate_efficiency 60 1 ≤ calculate_efficiency 30 1 ∧
    0 ≤ calculate_efficiency 30 1 ∧ calculate_efficiency 30 1 ≤ 100 :=
  ⟨by norm_num, by norm_num,
   by push_cast; rw [max_self]; norm_num,
   efficiency_bounds_and_monotonicity.2 30 1 60 1 (by norm_num) (by norm_num)
     (by push_cast; rw [max_self]; norm_num),
   (efficiency_bounds_and_monotonicity.1 30 1).1,
   (efficiency_bounds_and_monotonicity.1 30 1).2⟩

/-- Claim C8: for every supply list (quantities are naturals) and location,
`0 ≤ baseCost ≤ total`, the regional multiplier is at least 1, and a location
matching none of the known regions yields multiplier exactly 1. -/
theorem estimate_costs_invariants :
    ∀ (supplies : List SupplyLine) (location : Option String),
      0 ≤ (estimate_costs supplies location).base_cost ∧
      (estimate_costs supplies location).base_cost ≤ (estimate_costs supplies location).total ∧
      1 ≤ (estimate_costs supplies location).multiplier ∧
      (matchesKnownRegion location = false → (estimate_costs supplies location).multiplier = 1) := by
  intro supplies location
  obtain ⟨n, m, hm, hn, hmul, heq⟩ := estimate_costs_fields supplies location
  rw [heq]
  dsimp only
  refine ⟨by positivity, ?_, ?_, ?_⟩
  · have hn0 : (0:ℚ) ≤ (n:ℚ) := Nat.cast_nonneg n
    have hm0 : (0:ℚ) ≤ (m:ℚ) := Nat.cast_nonneg m
    rw [show (((100 + 2*m + 5) * n : ℕ) : ℚ)/100 = (n:ℚ) + (2*(m:ℚ)*(n:ℚ) + 5*(n:ℚ))/100
        from by push_cast; ring]
    have hrest : (0:ℚ) ≤ (2*(m:ℚ)*(n:ℚ) + 5*(n:ℚ))/100 := by positivity
    linarith
  · rcases hm with h | h | h | h <;> subst h <;> norm_num
  · intro hf
    rw [← hmul]
    exact regionFactors_unmatched location hf

/-- Witness for C8's theorem at the general package and the unmatched
location "Paris". -/
theorem estimate_costs_invariants_witness :
    matchesKnownRegion (some "Paris") = false ∧
    0 ≤ (estimate_costs generalSupplies (some "Paris")).base_cost ∧
    (estimate_costs generalSupplies (some "Paris")).base_cost ≤
      (estimate_costs generalSupplies (some "Paris")).total ∧
    1 ≤ (estimate_costs generalSupplies (some "Paris")).multiplier ∧
    (estimate_costs generalSupplies (some "Paris")).multiplier = 1 :=
  ⟨rfl, (estimate_costs_invariants generalSupplies (some "Paris")).1,
   (estimate_costs_invariants generalSupplies (some "Paris")).2.1,
   (estimate_costs_invariants generalSupplies (some "Paris")).2.2.1,
   (estimate_costs_invariants generalSupplies (some "Paris")).2.2.2 rfl⟩

/-- Claim C9: supply recommendation is total and never empty — for every
intent the result is non-empty, for every category outside the known three
(medical-emergency, food-security, water-crisis) the result is exactly the
general fallback package, and that package contains a medical, a food, a
water and a shelter item. -/
theorem recommend_supplies_total_nonempty :
    (∀ intent : Intent, recommend_supplies intent ≠ []) ∧
    (∀ intent : Intent,
      (["medical-emergency", "food-security", "water-crisis"] : List String).contains
        intent.type = false →
      recommend_supplies intent = generalSupplies) ∧
    (∃ s ∈ generalSupplies, strContainsSub s.code "medical" = true) ∧
    (∃ s ∈ generalSupplies, strContainsSub s.code "food" = true) ∧
    (∃ s ∈ generalSupplies, strContainsSub s.code "water" = true) ∧
    (∃ s ∈ generalSupplies, strContainsSub s.code "shelter" = true) := by
  refine ⟨?_, ?_, by decide, by decide, by decide, by decide⟩
  · intro intent
    simp only [recommend_supplies]
    split_ifs <;> simp [generalSupplies]
  · intro intent h
    simp only [List.contains_cons, List.contains_nil, Bool.or_eq_false_iff,
      Bool.or_false, beq_eq_false_iff_ne, ne_eq] at h
    simp only [recommend_supplies]
    rw [if_neg h.1, if_neg h.2.1, if_neg h.2.2]

/-- Witness for C9's theorem at the unknown category "earthquake". -/
theorem recommend_supplies_total_nonempty_witness :
    recommend_supplies c5Intent ≠ [] ∧
    (["medical-emergency", "food-security", "water-crisis"] : List String).contains
      c5Intent.type = false ∧
    recommend_supplies c5Intent = generalSupplies :=
  ⟨recommend_supplies_total_nonempty.1 c5Intent, by decide,
   recommend_supplies_total_nonempty.2.1 c5Intent (by decide)⟩

/-- Claim C10 (code bug): the claim says every plan carries a
`crisis_category` field, and the consumer at gdacs_analyzer.py line 100 reads
`mission_plan["crisis_category"]` — but the dict `optimize_mission_plan`
returns has exactly eight keys, and `crisis_category` is not among them, so
the access would raise KeyError. -/
theorem optimize_mission_plan_lacks_crisis_category :
    ((optimize_mission_plan "Create urgent mission in Gaza for medical supplies").map Prod.fst =
      ["recommendation", "reasoning", "estimated_cost", "estimated_beneficiaries",
       "estimated_timeline", "efficiency_score", "supplies", "risk_factors"]) ∧
    (optimize_mission_plan "Create urgent mission in Gaza for medical supplies").lookup
      "crisis_category" = none :=
  ⟨rfl, rfl⟩

end AidRoute
